import Mathlib

/-!
Shallow embedding of `src/code/ch2/example.c` from underTheHoodOfExecutables.

The C program declares three file-scope objects — a read-only string
`message`, an initialized integer `initialized_var = 42`, and an
uninitialized integer `uninitialized_var` (static storage, hence
zero-initialized before `main` runs) — plus a routine `print_message`
that calls `printf("%s\n", message)`, and a `main` that assigns
`uninitialized_var = initialized_var`, calls `print_message`, and
returns 0.

We model execution as a small-step machine over the four program points
of `main`, with the globals carried in the state and the observable
environment (stdout, stderr, stdout availability) as an explicit world.
`printf` is modelled as fallible: on an unavailable stdout it writes
nothing and returns a negative value, matching the C library contract.
-/

namespace ELFExample

/-- The file-scope constant `const char message[] = "Hello from ELF!"`
(example.c line 4). -/
def message : List Char := "Hello from ELF!".toList

/-- The file-scope variables of example.c (lines 4-6). -/
structure Globals where
  message : List Char
  initialized_var : Int
  uninitialized_var : Int
deriving DecidableEq

/-- Values of the globals at program start: `message` and `initialized_var`
take their initializers; `uninitialized_var` has static storage duration and
no initializer, so it is zero-initialized before `main` runs (C11 6.7.9p10). -/
def initGlobals : Globals :=
  { message := message, initialized_var := 42, uninitialized_var := 0 }

/-- The observable environment: the bytes accumulated on the standard output
and standard error streams, and whether stdout is available for writing. -/
structure World where
  stdout : List Char
  stderr : List Char
  stdoutOpen : Bool
deriving DecidableEq

/-- Model of the C library call `printf("%s\n", s)`: on an available stdout
it appends `s` and one newline and returns the number of characters written;
on an unavailable stream it writes nothing and returns a negative value. -/
def printf_s (s : List Char) (w : World) : Int × World :=
  if w.stdoutOpen then
    (((s.length + 1 : Nat) : Int), { w with stdout := w.stdout ++ s ++ ['\n'] })
  else
    (-1, w)

/-- `print_message` (example.c lines 8-10): `printf("%s\n", message)` with the
return value of `printf` discarded. -/
def print_message (g : Globals) (w : World) : World :=
  (printf_s g.message w).2

/-- The program points of `main` (example.c lines 12-16): before the
assignment, after the assignment, after the `print_message` call, and after
`return 0`. -/
inductive PC
  | start
  | afterAssign
  | afterPrint
  | done
deriving DecidableEq

/-- An execution state: the current program point, the globals, the world,
and the exit code once `main` has returned. -/
structure State where
  pc : PC
  globals : Globals
  world : World
  exitCode : Option Int
deriving DecidableEq

/-- The actions `main` can perform: the assignment
`uninitialized_var = initialized_var`, the `print_message()` call, and
`return` with a status code. -/
inductive Action
  | assign
  | output
  | ret (code : Int)
deriving DecidableEq

/-- One statement of `main`, together with the action it performs: at `start`
execute `uninitialized_var = initialized_var`; at `afterAssign` execute
`print_message()`; at `afterPrint` execute `return 0`; at `done` nothing
happens any more. -/
def stepA (s : State) : State × Option Action :=
  match s.pc with
  | PC.start =>
      ({ s with
          pc := PC.afterAssign,
          globals := { s.globals with
                        uninitialized_var := s.globals.initialized_var } },
       some Action.assign)
  | PC.afterAssign =>
      ({ s with pc := PC.afterPrint, world := print_message s.globals s.world },
       some Action.output)
  | PC.afterPrint =>
      ({ s with pc := PC.done, exitCode := some 0 }, some (Action.ret 0))
  | PC.done => (s, none)

/-- One statement of `main`, state part only. -/
def step (s : State) : State := (stepA s).1

/-- The state in which `main` begins, for a given initial world. -/
def initState (w : World) : State :=
  { pc := PC.start, globals := initGlobals, world := w, exitCode := none }

/-- The state after `n` statements of `main` have executed. -/
def states (w : World) : Nat → State
  | 0 => initState w
  | n + 1 => step (states w n)

/-- The actions performed in the first `n` steps from state `s`. -/
def actionsFrom : State → Nat → List Action
  | _, 0 => []
  | s, n + 1 =>
      match stepA s with
      | (t, some a) => a :: actionsFrom t n
      | (t, none) => actionsFrom t n

/-- Whether an action writes to `uninitialized_var`. -/
def writesUninit : Action → Bool
  | Action.assign => true
  | _ => false

/-- Running the program: `main` is declared with no parameters, so the
argument list handed to the process is never consulted; execution is the
three statements of `main`. -/
def run ( _args : List String) (w : World) : State := states w 3

/-- The initial world of an ordinary invocation: empty output streams and an
available stdout. -/
def initWorld : World := { stdout := [], stderr := [], stdoutOpen := true }

/-- The globals as they stand from the assignment statement onward. -/
def midGlobals : Globals :=
  { message := message, initialized_var := 42, uninitialized_var := 42 }

/-! ### Basic facts about the step machine -/

theorem stepA_of_done {s : State} (h : s.pc = PC.done) : stepA s = (s, none) := by
  obtain ⟨pc, g, w, e⟩ := s
  cases pc <;> simp_all [stepA]

theorem step_of_done {s : State} (h : s.pc = PC.done) : step s = s := by
  unfold step
  rw [stepA_of_done h]

theorem actionsFrom_of_done {s : State} (h : s.pc = PC.done) :
    ∀ n, actionsFrom s n = [] := by
  intro n
  induction n with
  | zero => rfl
  | succ n ih =>
      show actionsFrom s (n + 1) = []
      unfold actionsFrom
      rw [stepA_of_done h]
      exact ih

theorem states_one (w : World) :
    states w 1 =
      { pc := PC.afterAssign, globals := midGlobals, world := w,
        exitCode := none } := rfl

theorem states_two (w : World) :
    states w 2 =
      { pc := PC.afterPrint, globals := midGlobals,
        world := print_message midGlobals w, exitCode := none } := rfl

theorem states_three (w : World) :
    states w 3 =
      { pc := PC.done, globals := midGlobals,
        world := print_message midGlobals w, exitCode := some 0 } := rfl

theorem states_after_three (w : World) : ∀ k, states w (3 + k) = states w 3 := by
  intro k
  induction k with
  | zero => rfl
  | succ k ih =>
      show step (states w (3 + k)) = states w 3
      rw [ih]
      exact step_of_done (by rw [states_three w])

theorem step_pc_ne_start (s : State) : (step s).pc ≠ PC.start := by
  obtain ⟨pc, g, w, e⟩ := s
  cases pc <;> simp [step, stepA]

theorem step_globals_of_ne_start {s : State} (h : s.pc ≠ PC.start) :
    (step s).globals = s.globals := by
  obtain ⟨pc, g, w, e⟩ := s
  cases pc
  · exact absurd rfl h
  all_goals rfl

theorem step_message (s : State) :
    (step s).globals.message = s.globals.message := by
  obtain ⟨pc, g, w, e⟩ := s
  cases pc <;> rfl

theorem states_inv (w : World) :
    ∀ k, (states w (k + 1)).pc ≠ PC.start ∧
      (states w (k + 1)).globals = midGlobals := by
  intro k
  induction k with
  | zero => exact ⟨fun h => PC.noConfusion h, rfl⟩
  | succ k ih =>
      refine ⟨step_pc_ne_start _, ?_⟩
      show (step (states w (k + 1))).globals = midGlobals
      rw [step_globals_of_ne_start ih.1, ih.2]

theorem main_actions_aux (w : World) (k : Nat) :
    actionsFrom (initState w) (k + 3) =
      [Action.assign, Action.output, Action.ret 0] := by
  show Action.assign :: Action.output :: Action.ret 0 ::
      actionsFrom (states w 3) k =
    [Action.assign, Action.output, Action.ret 0]
  rw [actionsFrom_of_done (by rw [states_three w]) k]

/-! ### The claims -/

/-- C1: invoked with no arguments, the program writes exactly
`Hello from ELF!` followed by a single newline to stdout and nothing else,
stderr receives no output, and the exit code is 0. -/
theorem run_noargs_output :
    (run [] initWorld).world.stdout = "Hello from ELF!\n".toList ∧
    (run [] initWorld).world.stderr = [] ∧
    (run [] initWorld).exitCode = some 0 := by
  decide

/-- C2: on every invocation `main` performs exactly three actions in order:
the assignment, the call to the output routine, and returning status 0;
no other action occurs. -/
theorem main_three_actions (w : World) (n : Nat) (h : 3 ≤ n) :
    actionsFrom (initState w) n =
      [Action.assign, Action.output, Action.ret 0] := by
  obtain ⟨k, rfl⟩ : ∃ k, n = k + 3 := ⟨n - 3, by omega⟩
  exact main_actions_aux w k

theorem main_three_actions_witness :
    actionsFrom (initState initWorld) 3 =
      [Action.assign, Action.output, Action.ret 0] :=
  main_three_actions initWorld 3 (by decide)

/-- C3: `initialized_var` holds 42 at program start, and at every program
point after the assignment statement executes, `uninitialized_var` equals
`initialized_var` (hence 42), for the remainder of execution. -/
theorem assign_invariant (w : World) (n : Nat) (h : 1 ≤ n) :
    initGlobals.initialized_var = 42 ∧
    (states w n).globals.uninitialized_var =
      (states w n).globals.initialized_var ∧
    (states w n).globals.initialized_var = 42 := by
  obtain ⟨k, rfl⟩ : ∃ k, n = k + 1 := ⟨n - 1, by omega⟩
  have hg := (states_inv w k).2
  exact ⟨rfl, by rw [hg]; rfl, by rw [hg]; rfl⟩

theorem assign_invariant_witness :
    initGlobals.initialized_var = 42 ∧
    (states initWorld 1).globals.uninitialized_var =
      (states initWorld 1).globals.initialized_var ∧
    (states initWorld 1).globals.initialized_var = 42 :=
  assign_invariant initWorld 1 (by decide)

/-- C4: whenever invoked with stdout available, `print_message` appends the
fixed constant string plus exactly one newline to stdout and touches nothing
else, and across the whole run that write is the single observable effect:
the final world differs from the initial one only by that stdout append. -/
theorem print_message_effect (g : Globals) (w : World)
    (h : w.stdoutOpen = true) :
    (print_message g w).stdout = w.stdout ++ g.message ++ ['\n'] ∧
    (print_message g w).stderr = w.stderr ∧
    (print_message g w).stdoutOpen = w.stdoutOpen ∧
    (states w 3).world.stdout = w.stdout ++ initGlobals.message ++ ['\n'] ∧
    (states w 3).world.stderr = w.stderr ∧
    (states w 3).world.stdoutOpen = w.stdoutOpen := by
  rw [states_three w]
  simp [print_message, printf_s, h, midGlobals, initGlobals]

theorem print_message_effect_witness :
    (print_message initGlobals initWorld).stdout =
      initWorld.stdout ++ initGlobals.message ++ ['\n'] ∧
    (print_message initGlobals initWorld).stderr = initWorld.stderr ∧
    (print_message initGlobals initWorld).stdoutOpen = initWorld.stdoutOpen ∧
    (states initWorld 3).world.stdout =
      initWorld.stdout ++ initGlobals.message ++ ['\n'] ∧
    (states initWorld 3).world.stderr = initWorld.stderr ∧
    (states initWorld 3).world.stdoutOpen = initWorld.stdoutOpen :=
  print_message_effect initGlobals initWorld rfl

/-- C5: the textual constant is exactly "Hello from ELF!" and is read-only:
at every program point of every execution its contents are unchanged. -/
theorem message_immutable (w : World) (n : Nat) :
    message = "Hello from ELF!".toList ∧
    (states w n).globals.message = "Hello from ELF!".toList := by
  refine ⟨rfl, ?_⟩
  induction n with
  | zero => rfl
  | succ n ih =>
      show (step (states w n)).globals.message = "Hello from ELF!".toList
      rw [step_message]
      exact ih

/-- C6: over any complete execution, exactly one action writes
`uninitialized_var`, and that single write stores into it the value of
`initialized_var`. -/
theorem uninit_written_once (w : World) (n : Nat) (h : 3 ≤ n) :
    ((actionsFrom (initState w) n).filter writesUninit).length = 1 ∧
    (states w 1).globals.uninitialized_var =
      (states w 0).globals.initialized_var := by
  obtain ⟨k, rfl⟩ : ∃ k, n = k + 3 := ⟨n - 3, by omega⟩
  refine ⟨?_, rfl⟩
  rw [main_actions_aux w k]
  rfl

theorem uninit_written_once_witness :
    ((actionsFrom (initState initWorld) 3).filter writesUninit).length = 1 ∧
    (states initWorld 1).globals.uninitialized_var =
      (states initWorld 0).globals.initialized_var :=
  uninit_written_once initWorld 3 (by decide)

/-- C7: the program parses no command-line arguments: any two invocations,
whatever their argument lists, produce identical stdout and exit code. -/
theorem args_irrelevant (a b : List String) (w : World) :
    (run a w).world.stdout = (run b w).world.stdout ∧
    (run a w).exitCode = (run b w).exitCode :=
  ⟨rfl, rfl⟩

/-- C8: under the precondition that stdout is available, no operation of
`main` or `print_message` fails: the sole fallible operation, the `printf`,
succeeds (non-negative result, the string actually written), and execution
reaches the final program point with exit code 0. -/
theorem no_failure_paths (w : World) (h : w.stdoutOpen = true) :
    0 ≤ (printf_s initGlobals.message w).1 ∧
    (states w 3).pc = PC.done ∧
    (states w 3).exitCode = some 0 ∧
    (states w 3).world.stdout = w.stdout ++ initGlobals.message ++ ['\n'] := by
  refine ⟨?_, rfl, rfl, ?_⟩
  · simp [printf_s, h]
    omega
  · rw [states_three w]
    simp [print_message, printf_s, h, midGlobals, initGlobals]

theorem no_failure_paths_witness :
    0 ≤ (printf_s initGlobals.message initWorld).1 ∧
    (states initWorld 3).pc = PC.done ∧
    (states initWorld 3).exitCode = some 0 ∧
    (states initWorld 3).world.stdout =
      initWorld.stdout ++ initGlobals.message ++ ['\n'] :=
  no_failure_paths initWorld rfl

/-- C9: `uninitialized_var` has static storage duration, so at every program
point before the assignment statement has executed its value is 0 — it is
zero-initialized at program start, not indeterminate. -/
theorem uninit_zero_before_assign (w : World) (n : Nat)
    (h : (states w n).pc = PC.start) :
    (states w n).globals.uninitialized_var = 0 := by
  cases n with
  | zero => rfl
  | succ n => exact absurd h (states_inv w n).1

theorem uninit_zero_before_assign_witness :
    (states initWorld 0).globals.uninitialized_var = 0 :=
  uninit_zero_before_assign initWorld 0 rfl

/-- C10: the value returned by `printf` is discarded, so `main` exits with
code 0 unconditionally: on an invocation where stdout is unavailable the
write fails (negative `printf` result, nothing appended to stdout) and the
exit code is still 0. -/
theorem exit_zero_on_write_failure (w : World) (h : w.stdoutOpen = false) :
    (printf_s initGlobals.message w).1 < 0 ∧
    (states w 3).world.stdout = w.stdout ∧
    (states w 3).exitCode = some 0 := by
  refine ⟨?_, ?_, rfl⟩
  · simp [printf_s, h]
  · rw [states_three w]
    simp [print_message, printf_s, h]

theorem exit_zero_on_write_failure_witness :
    (printf_s initGlobals.message
        { stdout := [], stderr := [], stdoutOpen := false }).1 < 0 ∧
    (states { stdout := [], stderr := [], stdoutOpen := false } 3).world.stdout
        = [] ∧
    (states { stdout := [], stderr := [], stdoutOpen := false } 3).exitCode
        = some 0 :=
  exit_zero_on_write_failure { stdout := [], stderr := [], stdoutOpen := false }
    rfl

end ELFExample
